import Mathlib

/-!
Shallow embedding of `src/helix-view/src/gutter.rs`: the three gutter
renderer factories (`diagnostic`, `line_number`, `breakpoints`) and the
helper `abs_diff`.  External collaborators (theme, document, view, editor,
styles) are modelled from the spec's description of the interfaces this
file consumes; the renderer bodies are translated line by line from the
source.  A bound renderer `Fn(usize, bool, &mut String) -> Option<Style>`
is embedded as a pure function taking the buffer contents and returning
the new contents together with the optional style; the one `panic!`-able
operation (the bind-time `.unwrap()` on the breakpoint-store lookup) is
embedded by making that factory return an `Option`, `none` being the
panic.
-/

namespace Gutter

/-- Modelled from the spec: diagnostic severity enumeration
(`helix_core::diagnostic::Severity`, external to `gutter.rs`). -/
inductive Severity
  | error
  | warning
  | info
  | hint
deriving DecidableEq, Repr

/-- Modelled from the spec: a diagnostic has a 0-based line index and an
optional severity. -/
structure Diagnostic where
  line : Nat
  severity : Option Severity
deriving DecidableEq, Repr

/-- Modelled from the spec: a breakpoint has a 0-based line index, a
`verified` flag, and optional `condition` and `log_message` strings. -/
structure Breakpoint where
  line : Nat
  verified : Bool
  condition : Option String
  log_message : Option String
deriving DecidableEq, Repr

/-- Modelled from the spec: terminal colors (`graphics::Color`): an
explicit RGB triple (channels are `u8` values `0..=255`), the fixed gray,
or any other representation (the remaining named/indexed variants are
collapsed into `other`). -/
inductive Color
  | rgb (r g b : Nat)
  | gray
  | other (n : Nat)
deriving DecidableEq, Repr

/-- Modelled from the spec: a visual style (`graphics::Style`): optional
foreground and background colors plus the single modifier bit this file
ever manipulates (`Modifier::UNDERLINED`). -/
structure Style where
  fg : Option Color := none
  bg : Option Color := none
  underlined : Bool := false
deriving DecidableEq, Repr

/-- Modelled from the spec: the only style modifier used by the gutter. -/
inductive Modifier
  | underlined
deriving DecidableEq, Repr

/-- `Style::add_modifier`: set the corresponding modifier bit. -/
def Style.add_modifier (s : Style) : Modifier → Style
  | Modifier.underlined => { s with underlined := true }

/-- `Style::fg(color)`: replace the foreground color. -/
def Style.with_fg (s : Style) (c : Color) : Style :=
  { s with fg := some c }

/-- Modelled from the spec: theme lookup; `get` must succeed for required
names, `try_get` is the fallback-capable variant. -/
structure Theme where
  get : String → Style
  try_get : String → Option Style

/-- Modelled from the spec: the read-only text accessors `gutter.rs` uses
on the document's rope (`len_bytes`, `line_to_byte`, `char_to_line`). -/
structure DocText where
  len_bytes : Nat
  line_to_byte : Nat → Nat
  char_to_line : Nat → Nat

/-- Modelled from the spec: the document accessors used here: text,
diagnostics, backing file path. -/
structure Document where
  text : DocText
  diagnostics : List Diagnostic
  path : Option String

/-- Modelled from the spec: the view accessors used here: the last visible
line (`view.last_line(doc)`) and the primary cursor's char position
(`doc.selection(view.id).primary().cursor(text)`). -/
structure View where
  last_line : Nat
  cursor : Nat

/-- Modelled from the spec: numbering mode (`editor::LineNumber`). -/
inductive LineNumber
  | absolute
  | relative
deriving DecidableEq, Repr

/-- Modelled from the spec: the editor configuration field read here. -/
structure EditorConfig where
  line_number : LineNumber

/-- Modelled from the spec: the editor state read here: configuration and
the path-indexed breakpoint store (a hash map, embedded as an association
list whose `get` is first-match lookup). -/
structure Editor where
  config : EditorConfig
  breakpoints : List (String × List Breakpoint)

/-- `editor.breakpoints.get(path)` on the path-indexed store. -/
def store_get (store : List (String × List Breakpoint)) (path : String) :
    Option (List Breakpoint) :=
  (store.find? (fun e => e.1 == path)).map (fun e => e.2)

/-- A bound per-line renderer,
`Box<dyn Fn(usize, bool, &mut String) -> Option<Style>>`: the `&mut
String` out-parameter is embedded by returning the new buffer contents
alongside the optional style. -/
abbrev GutterFn : Type :=
  Nat → Bool → String → String × Option Style

/-- Rust's `write!(out, "{:>width$}", v)` for the values written here: the
rendered text right-justified with spaces to `width` columns (no
truncation when already wider). -/
def right_just (s : String) (width : Nat) : String :=
  String.mk (List.replicate (width - s.length) ' ') ++ s

/-- `gutter.rs::diagnostic`: bind the diagnostic gutter renderer. -/
def diagnostic (_editor : Editor) (doc : Document) (_view : View)
    (theme : Theme) (_is_focused : Bool) (_width : Nat) : GutterFn :=
  let warning := theme.get "warning"
  let error := theme.get "error"
  let info := theme.get "info"
  let hint := theme.get "hint"
  let diagnostics := doc.diagnostics
  fun line _selected out =>
    match diagnostics.find? (fun d => d.line == line) with
    | some d =>
      (out ++ "●",
        some (match d.severity with
          | some Severity.error => error
          | some Severity.warning | none => warning
          | some Severity.info => info
          | some Severity.hint => hint))
    | none => (out, none)

/-- `gutter.rs::abs_diff`. -/
def abs_diff (a b : Nat) : Nat :=
  if a > b then a - b else b - a

/-- `gutter.rs::line_number`: bind the line-number gutter renderer.
`draw_last` (whether to draw a number for the last visible line rather
than the `~` placeholder) is computed here, at bind time. -/
def line_number (editor : Editor) (doc : Document) (view : View)
    (theme : Theme) (is_focused : Bool) (width : Nat) : GutterFn :=
  let text := doc.text
  let last_line := view.last_line
  let draw_last := decide (text.line_to_byte last_line < text.len_bytes)
  let linenr := theme.get "ui.linenr"
  let linenr_select := (theme.try_get "ui.linenr.selected").getD linenr
  let current_line := text.char_to_line view.cursor
  let config := editor.config.line_number
  fun line selected out =>
    if line == last_line && !draw_last then
      (out ++ right_just "~" width, some linenr)
    else
      let n :=
        match config with
        | LineNumber.absolute => line + 1
        | LineNumber.relative =>
          if current_line == line then line + 1 else abs_diff current_line line
      let style := if selected && is_focused then linenr_select else linenr
      (out ++ right_just (Nat.repr n) width, some style)

/-- `((c as f32) * 0.4).floor() as u8`: for every channel value `c ≤ 255`
the rounded `f32` product `c * 0.4f32` lies strictly within half an ulp of
the exact real product `c * 2/5`, so its floor equals the exact floor
`⌊2c/5⌋`, which on `Nat` is `2 * c / 5`. -/
def fade_channel (c : Nat) : Nat :=
  2 * c / 5

/-- The per-line body of the closure returned by `gutter.rs::breakpoints`
(everything below the bind-time captures): first breakpoint whose line
matches, style decision table, unverified fading, glyph choice. -/
def breakpoint_render (warning error info : Style) (bps : List Breakpoint)
    (line : Nat) (out : String) : String × Option Style :=
  match bps.find? (fun b => b.line == line) with
  | none => (out, none)
  | some b =>
    let style :=
      if b.condition.isSome && b.log_message.isSome then
        error.add_modifier Modifier.underlined
      else if b.condition.isSome then
        error
      else if b.log_message.isSome then
        info
      else
        warning
    let style :=
      if !b.verified then
        match style.fg with
        | some (Color.rgb r g bl) =>
          style.with_fg (Color.rgb (fade_channel r) (fade_channel g) (fade_channel bl))
        | _ => style.with_fg Color.gray
      else style
    let sym := if b.verified then "▲" else "⊚"
    (out ++ sym, some style)

/-- `gutter.rs::breakpoints`: bind the breakpoint gutter renderer.  The
source calls `.unwrap()` on `doc.path().and_then(|path|
editor.breakpoints.get(path))`; the panic on `None` is embedded as this
factory returning `none` (binding fails), `some` being a successful
bind. -/
def breakpoints (editor : Editor) (doc : Document) (_view : View)
    (theme : Theme) (_is_focused : Bool) (_width : Nat) : Option GutterFn :=
  let warning := theme.get "warning"
  let error := theme.get "error"
  let info := theme.get "info"
  match doc.path.bind (fun path => store_get editor.breakpoints path) with
  | none => none
  | some bps =>
    some (fun line _selected out => breakpoint_render warning error info bps line out)

/-- A renderer only ever appends to the caller's output buffer, and
appends nothing at all when it returns no style. -/
def append_only (gf : GutterFn) : Prop :=
  ∀ line selected out,
    (∃ t, (gf line selected out).1 = out ++ t) ∧
      ((gf line selected out).2 = none → (gf line selected out).1 = out)

/-! Concrete fixtures used by the witness theorems. -/

def style_err : Style := { fg := some (Color.rgb 200 50 50) }

def style_warn : Style := { fg := some (Color.other 3) }

def style_info : Style := { fg := some (Color.rgb 10 20 30) }

def style_hint : Style := { fg := some Color.gray }

def style_nr : Style := { fg := some (Color.rgb 90 90 90) }

def style_nr_sel : Style := { fg := some (Color.rgb 250 250 250) }

def sample_theme : Theme where
  get := fun name =>
    if name == "error" then style_err
    else if name == "warning" then style_warn
    else if name == "info" then style_info
    else if name == "hint" then style_hint
    else if name == "ui.linenr" then style_nr
    else {}
  try_get := fun name =>
    if name == "ui.linenr.selected" then some style_nr_sel else none

/-- A 100-line document body: every line is 10 bytes / 10 chars, total
1000 bytes, so the last visible line (99) is non-empty. -/
def sample_text : DocText where
  len_bytes := 1000
  line_to_byte := fun n => 10 * n
  char_to_line := fun c => c / 10

def sample_doc : Document where
  text := sample_text
  diagnostics := [⟨2, some Severity.error⟩, ⟨2, some Severity.hint⟩]
  path := some "file.rs"

/-- Same shape but the text ends exactly at the start of line 99, so the
last visible line is empty. -/
def sample_text_empty_last : DocText where
  len_bytes := 990
  line_to_byte := fun n => 10 * n
  char_to_line := fun c => c / 10

def sample_doc_empty_last : Document :=
  { sample_doc with text := sample_text_empty_last }

def sample_doc_no_path : Document :=
  { sample_doc with path := none }

def sample_view : View where
  last_line := 99
  cursor := 505

def bp_cond_log : Breakpoint :=
  { line := 4, verified := true, condition := some "x > 0", log_message := some "hit" }

def bp_unverified : Breakpoint :=
  { line := 4, verified := false, condition := some "x > 0", log_message := none }

def sample_editor : Editor where
  config := { line_number := LineNumber.relative }
  breakpoints := [("file.rs", [bp_unverified])]

def sample_editor_empty_store : Editor where
  config := { line_number := LineNumber.absolute }
  breakpoints := []

/-! Helper lemmas shared between the claim theorems. -/

/-- The guard of `line_number`'s `~` branch is false away from the
empty-last-line case. -/
theorem line_number_guard_false (doc : Document) (view : View) (line : Nat)
    (h : line ≠ view.last_line ∨
      doc.text.line_to_byte view.last_line < doc.text.len_bytes) :
    (line == view.last_line &&
      !(decide (doc.text.line_to_byte view.last_line < doc.text.len_bytes))) = false := by
  rcases h with h | h <;> simp [h]

theorem abs_diff_eq_natAbs (a b : Nat) :
    abs_diff a b = ((a : Int) - (b : Int)).natAbs := by
  unfold abs_diff
  split <;> omega

theorem string_append_empty_right (s : String) : s ++ "" = s :=
  String.append_empty s

/-! The claim theorems. -/

/-- Claim C1: at the concrete failing input — a document whose backing
path has no entry in the editor's breakpoint store — binding the
breakpoint renderer does not capture an empty list and succeed: the
source unwraps the `None` lookup result and panics, embedded here as the
factory returning `none`. -/
theorem breakpoints_missing_entry_panics :
    breakpoints sample_editor_empty_store sample_doc sample_view sample_theme
      false 1 = none := by
  rfl

/-- Claim C3: for a (verified, hence unfaded) breakpoint found at the
queried line, the returned style follows the decision table evaluated in
order: condition and log message → error with underline added; condition
only → error; log message only → info; neither → warning. -/
theorem breakpoint_style_table (warning error info : Style)
    (bps : List Breakpoint) (line : Nat) (b : Breakpoint) (out : String)
    (hfind : bps.find? (fun x => x.line == line) = some b)
    (hver : b.verified = true) :
    (breakpoint_render warning error info bps line out).2 =
      some (if b.condition.isSome && b.log_message.isSome then
              error.add_modifier Modifier.underlined
            else if b.condition.isSome then error
            else if b.log_message.isSome then info
            else warning) := by
  unfold breakpoint_render
  rw [hfind]
  simp [hver]

/-- Claim C3 witness: condition and log message both set, verified:
the error style with the underlined modifier added. -/
theorem breakpoint_style_table_w :
    (breakpoint_render style_warn style_err style_info [bp_cond_log] 4 "").2 =
      some (style_err.add_modifier Modifier.underlined) := by
  have h := breakpoint_style_table style_warn style_err style_info [bp_cond_log]
    4 bp_cond_log "" (by rfl) (by rfl)
  rw [h]
  rfl

/-- Claim C4: for a breakpoint found at the queried line, the glyph is the
filled triangle exactly when verified and the hollow ring otherwise; when
not verified the base style's foreground is faded: an RGB triple has each
channel scaled to `⌊c·0.4⌋ = 2·c/5`, any non-RGB foreground is replaced
by the fixed gray. -/
theorem breakpoint_fade_glyph (warning error info : Style)
    (bps : List Breakpoint) (line : Nat) (b : Breakpoint) (out : String)
    (hfind : bps.find? (fun x => x.line == line) = some b) :
    (breakpoint_render warning error info bps line out).1 =
      out ++ (if b.verified then "▲" else "⊚") ∧
    (b.verified = false →
      (breakpoint_render warning error info bps line out).2 =
        some (
          let base :=
            if b.condition.isSome && b.log_message.isSome then
              error.add_modifier Modifier.underlined
            else if b.condition.isSome then error
            else if b.log_message.isSome then info
            else warning
          match base.fg with
          | some (Color.rgb r g bl) =>
            base.with_fg (Color.rgb (2 * r / 5) (2 * g / 5) (2 * bl / 5))
          | _ => base.with_fg Color.gray)) := by
  unfold breakpoint_render
  rw [hfind]
  constructor
  · simp
  · intro hv
    simp [hv, fade_channel]

/-- Claim C4 witness (the spec's example): an unverified breakpoint with
condition only, error foreground RGB(200,50,50): glyph `⊚`, returned
foreground faded to RGB(80,20,20). -/
theorem breakpoint_fade_glyph_w :
    (breakpoint_render style_warn style_err style_info [bp_unverified] 4 "").1 =
      "⊚" ∧
    (breakpoint_render style_warn style_err style_info [bp_unverified] 4 "").2 =
      some { fg := some (Color.rgb 80 20 20) } := by
  have h := breakpoint_fade_glyph style_warn style_err style_info [bp_unverified]
    4 bp_unverified "" (by rfl)
  exact ⟨h.1, h.2 (by rfl)⟩

/-- Claim C6: the diagnostic renderer uses the first diagnostic (in
iteration order) whose line equals the queried line, appends one filled
circle, and maps severity to style with both `none` and `warning` going
to the warning style and error/info/hint mapping 1:1. -/
theorem diagnostic_first_match_style (editor : Editor) (doc : Document)
    (view : View) (theme : Theme) (is_focused : Bool) (width line : Nat)
    (selected : Bool) (out : String) (d : Diagnostic)
    (hfind : doc.diagnostics.find? (fun x => x.line == line) = some d) :
    diagnostic editor doc view theme is_focused width line selected out =
      (out ++ "●",
        some (match d.severity with
          | some Severity.error => theme.get "error"
          | some Severity.warning => theme.get "warning"
          | none => theme.get "warning"
          | some Severity.info => theme.get "info"
          | some Severity.hint => theme.get "hint")) := by
  unfold diagnostic
  rw [hfind]

/-- Claim C6 witness: two diagnostics on line 2 (error first, hint
second): the first one wins and the error style is returned. -/
theorem diagnostic_first_match_style_w :
    diagnostic sample_editor sample_doc sample_view sample_theme true 1 2
      false "x" = ("x●", some style_err) := by
  have h := diagnostic_first_match_style sample_editor sample_doc sample_view
    sample_theme true 1 2 false "x" ⟨2, some Severity.error⟩ (by rfl)
  exact h.trans (by rfl)

/-- Claim C7: a line with no diagnostic gets nothing appended and no style
from the diagnostic renderer, and a line with no breakpoint likewise gets
nothing appended and no style from the breakpoint renderer. -/
theorem no_mark_no_output (editor : Editor) (doc : Document) (view : View)
    (theme : Theme) (is_focused : Bool) (width line : Nat) (selected : Bool)
    (out : String) (warning error info : Style) (bps : List Breakpoint)
    (hd : ∀ x ∈ doc.diagnostics, x.line ≠ line)
    (hb : ∀ x ∈ bps, x.line ≠ line) :
    diagnostic editor doc view theme is_focused width line selected out =
      (out, none) ∧
    breakpoint_render warning error info bps line out = (out, none) := by
  have h1 : doc.diagnostics.find? (fun x => x.line == line) = none :=
    List.find?_eq_none.mpr (by intro x hx; simpa using hd x hx)
  have h2 : bps.find? (fun x => x.line == line) = none :=
    List.find?_eq_none.mpr (by intro x hx; simpa using hb x hx)
  constructor
  · unfold diagnostic
    rw [h1]
  · unfold breakpoint_render
    rw [h2]

/-- Claim C7 witness: line 7 carries neither of the sample marks, so both
renderers leave the buffer `"ab"` unchanged and return no style. -/
theorem no_mark_no_output_w :
    diagnostic sample_editor sample_doc sample_view sample_theme true 1 7
      false "ab" = ("ab", none) ∧
    breakpoint_render style_warn style_err style_info [bp_cond_log] 7 "ab" =
      ("ab", none) :=
  no_mark_no_output sample_editor sample_doc sample_view sample_theme true 1 7
    false "ab" style_warn style_err style_info [bp_cond_log]
    (by decide) (by decide)

/-- Claim C2: away from the empty-last-line case, the emitted text is the
decimal display number right-justified to `width`: in absolute mode
`line + 1`; in relative mode `line + 1` on the cursor's line and the
unsigned distance `|current_line − line|` on every other line. -/
theorem line_number_emits_number (editor : Editor) (doc : Document)
    (view : View) (theme : Theme) (is_focused : Bool) (width line : Nat)
    (selected : Bool) (out : String)
    (h : line ≠ view.last_line ∨
      doc.text.line_to_byte view.last_line < doc.text.len_bytes) :
    (line_number editor doc view theme is_focused width line selected out).1 =
      out ++ right_just (Nat.repr (
        match editor.config.line_number with
        | LineNumber.absolute => line + 1
        | LineNumber.relative =>
          if doc.text.char_to_line view.cursor = line then line + 1
          else ((doc.text.char_to_line view.cursor : Int) - (line : Int)).natAbs))
        width := by
  have hg := line_number_guard_false doc view line h
  unfold line_number
  simp only [hg, Bool.false_eq_true, if_false]
  cases hcfg : editor.config.line_number with
  | absolute => rfl
  | relative =>
    by_cases hc : doc.text.char_to_line view.cursor = line
    · simp [hc]
    · simp [hc, abs_diff_eq_natAbs]

/-- Claim C2 witness (the spec's example): cursor on line 50, relative
mode, width 3: querying line 10 emits `" 40"`. -/
theorem line_number_emits_number_w :
    (line_number sample_editor sample_doc sample_view sample_theme true 3 10
      false "").1 = " 40" := by
  have h := line_number_emits_number sample_editor sample_doc sample_view
    sample_theme true 3 10 false "" (Or.inl (by decide))
  rw [h]
  rfl

/-- Claim C5: when the last visible line's byte offset equals the text's
total byte length, querying that line emits `~` right-justified to
`width` and returns the default line-number style, for every numbering
mode and every selected/focused combination (the decision only involves
data captured at bind time). -/
theorem line_number_empty_last_line (editor : Editor) (doc : Document)
    (view : View) (theme : Theme) (is_focused : Bool) (width : Nat)
    (selected : Bool) (out : String)
    (h : doc.text.line_to_byte view.last_line = doc.text.len_bytes) :
    line_number editor doc view theme is_focused width view.last_line selected
      out = (out ++ right_just "~" width, some (theme.get "ui.linenr")) := by
  have hlt : ¬ doc.text.line_to_byte view.last_line < doc.text.len_bytes := by
    omega
  unfold line_number
  simp [hlt]

/-- Claim C5 witness: the text ends exactly at the start of line 99, so
line 99 renders as `"  ~"` in the default line-number style even though
it is marked selected and the view is focused. -/
theorem line_number_empty_last_line_w :
    line_number sample_editor sample_doc_empty_last sample_view sample_theme
      true 3 sample_view.last_line true "" = ("  ~", some style_nr) := by
  have h := line_number_empty_last_line sample_editor sample_doc_empty_last
    sample_view sample_theme true 3 true "" (by rfl)
  exact h.trans (by rfl)

/-- Claim C8: away from the empty-last-line case, the line-number renderer
returns the selected style variant exactly when the line's selected flag
and the captured focus flag are both set, and the default line-number
style in every other combination. -/
theorem line_number_selected_style (editor : Editor) (doc : Document)
    (view : View) (theme : Theme) (is_focused : Bool) (width line : Nat)
    (selected : Bool) (out : String)
    (h : line ≠ view.last_line ∨
      doc.text.line_to_byte view.last_line < doc.text.len_bytes) :
    (line_number editor doc view theme is_focused width line selected out).2 =
      some (if selected && is_focused then
              (theme.try_get "ui.linenr.selected").getD (theme.get "ui.linenr")
            else theme.get "ui.linenr") := by
  have hg := line_number_guard_false doc view line h
  unfold line_number
  simp only [hg, Bool.false_eq_true, if_false]

/-- Claim C8 witness: line 50 selected in a focused view gets the selected
line-number style. -/
theorem line_number_selected_style_w :
    (line_number sample_editor sample_doc sample_view sample_theme true 3 50
      true "").2 = some style_nr_sel := by
  have h := line_number_selected_style sample_editor sample_doc sample_view
    sample_theme true 3 50 true "" (Or.inl (by decide))
  rw [h]
  rfl

/-- Claim C9: binding the breakpoint renderer for a document without a
backing path fails at bind time itself (the source's `.unwrap()` panic,
embedded as the factory returning `none`); and whenever binding succeeds
the bound per-line function is exactly the total `breakpoint_render` on
the captured list, which never consults the path or the store again, so
no per-line invocation can trigger the failure. -/
theorem breakpoints_path_precondition (editor : Editor) (doc : Document)
    (view : View) (theme : Theme) (is_focused : Bool) (width : Nat) :
    (doc.path = none →
      breakpoints editor doc view theme is_focused width = none) ∧
    (∀ bps, doc.path.bind (fun p => store_get editor.breakpoints p) = some bps →
      breakpoints editor doc view theme is_focused width =
        some (fun line _selected out =>
          breakpoint_render (theme.get "warning") (theme.get "error")
            (theme.get "info") bps line out)) := by
  constructor
  · intro hp
    unfold breakpoints
    rw [hp]
    rfl
  · intro bps hb
    unfold breakpoints
    rw [hb]

/-- Claim C9 witness: binding against the path-less document fails. -/
theorem breakpoints_path_precondition_w :
    breakpoints sample_editor sample_doc_no_path sample_view sample_theme
      false 1 = none :=
  (breakpoints_path_precondition sample_editor sample_doc_no_path sample_view
    sample_theme false 1).1 (by rfl)

/-- Claim C10: every bound renderer — diagnostic, line-number, and any
successfully bound breakpoint renderer — only appends to the caller's
output buffer, and appends nothing when it returns no style. -/
theorem renderers_append_only (editor : Editor) (doc : Document) (view : View)
    (theme : Theme) (is_focused : Bool) (width : Nat) :
    append_only (diagnostic editor doc view theme is_focused width) ∧
    append_only (line_number editor doc view theme is_focused width) ∧
    (∀ gf, breakpoints editor doc view theme is_focused width = some gf →
      append_only gf) := by
  refine ⟨?_, ?_, ?_⟩
  · intro line selected out
    unfold diagnostic
    cases hf : doc.diagnostics.find? (fun d => d.line == line) with
    | none =>
      simp only [hf]
      exact ⟨⟨"", (string_append_empty_right out).symm⟩, by simp⟩
    | some d =>
      simp only [hf]
      exact ⟨⟨"●", rfl⟩, fun hc => Option.noConfusion hc⟩
  · intro line selected out
    unfold line_number
    rcases Bool.eq_false_or_eq_true (line == view.last_line &&
      !(decide (doc.text.line_to_byte view.last_line < doc.text.len_bytes)))
      with hg | hg
    · simp only [hg, Bool.false_eq_true, if_false]
      exact ⟨⟨_, rfl⟩, fun hc => Option.noConfusion hc⟩
    · simp only [hg, if_true]
      exact ⟨⟨_, rfl⟩, fun hc => Option.noConfusion hc⟩
  · intro gf hgf line selected out
    unfold breakpoints at hgf
    rcases hp : doc.path.bind (fun path => store_get editor.breakpoints path)
      with _ | bps
    · rw [hp] at hgf
      exact Option.noConfusion hgf
    · rw [hp] at hgf
      simp only [Option.some.injEq] at hgf
      subst hgf
      show (∃ t, (breakpoint_render _ _ _ bps line out).1 = out ++ t) ∧ _
      unfold breakpoint_render
      cases hf : bps.find? (fun b => b.line == line) with
      | none =>
        simp only [hf]
        exact ⟨⟨"", (string_append_empty_right out).symm⟩, by simp⟩
      | some b =>
        simp only [hf]
        exact ⟨⟨_, rfl⟩, fun hc => Option.noConfusion hc⟩

/-- Claim C10 witness: the bound diagnostic renderer at a concrete bind is
append-only. -/
theorem renderers_append_only_w :
    append_only (diagnostic sample_editor sample_doc sample_view sample_theme
      true 1) :=
  (renderers_append_only sample_editor sample_doc sample_view sample_theme
    true 1).1

end Gutter
